/-
Verification of the `pyprojects` CLI (src/pyprojects/pyprojects/cli.py)
against its natural-language specification.

The four commands (quote, guess, dice, ytdl) are shallowly embedded as
pure Lean functions.  Effects are made explicit:
  * randomness: `random.randint` is modelled from its documented contract
    as a function of an entropy value (a natural number), landing in the
    inclusive range via modular reduction;
  * interactive input: the lines typed by the user are a `List String`;
  * terminal output: the lines printed (with their rich markup) are
    returned as a `List String`;
  * the process exit status is an explicit field;
  * the network collaborator of `quote` and the filesystem touched by
    `ytdl` are explicit inputs.
-/
import Mathlib

namespace Pyprojects

/-! ### Python `int()` parsing, modelled from the language reference

`int(raw)` on a string strips surrounding whitespace, accepts an optional
single sign, then a nonempty run of ASCII digits in which single
underscores may appear between digits; anything else raises `ValueError`.
-/

/-- Whitespace characters stripped by Python `int()`. -/
def isPySpace (c : Char) : Bool :=
  c = ' ' || c = '\t' || c = '\n' || c = '\x0d' || c = '\x0b' || c = '\x0c'

/-- Strip leading and trailing whitespace from a character list. -/
def stripWs (cs : List Char) : List Char :=
  ((cs.dropWhile isPySpace).reverse.dropWhile isPySpace).reverse

/-- Parse a digit run with optional single underscores between digits.
`prevDigit` records whether the previous character was a digit (so an
underscore is only legal right after a digit, and the run must end on a
digit). -/
def parseDigitsAux : List Char → Nat → Bool → Option Nat
  | [], acc, true => some acc
  | [], _, false => none
  | c :: cs, acc, prevDigit =>
    if c.isDigit then
      parseDigitsAux cs (acc * 10 + (c.toNat - '0'.toNat)) true
    else if c = '_' && prevDigit then
      parseDigitsAux cs acc false
    else
      none

/-- Python `int(raw)` for a string argument: `some n` on success,
`none` when `ValueError` would be raised. -/
def pyInt (s : String) : Option Int :=
  match stripWs s.data with
  | '+' :: cs => (parseDigitsAux cs 0 false).map Int.ofNat
  | '-' :: cs => (parseDigitsAux cs 0 false).map (fun n => -(n : Int))
  | cs => (parseDigitsAux cs 0 false).map Int.ofNat

/-! ### `random.randint`, modelled from its documented contract

`random.randint(lo, hi)` returns an integer in `[lo, hi]` inclusive.  The
generator's entropy is an explicit natural number `r`; the draw is reduced
into the range by modulus, which is all the claims depend on. -/

/-- `random.randint lo hi` on entropy `r`. -/
def randint (lo hi : Int) (r : Nat) : Int :=
  lo + ((r % (hi - lo + 1).toNat : Nat) : Int)

/-! ### The `guess` command -/

/-- How a guess session ended:
`won t` — a guess equal to the secret was accepted at turn `t` (the
function returns); `lost` — the `for` loop over turns finished without a
match; `eofAbort` — the interactive input ended before the loop did
(`Prompt.ask` raises on end-of-input). -/
inductive GOutcome where
  | won (turn : Nat)
  | lost
  | eofAbort
deriving DecidableEq, Repr

/-- Messages printed by `guess`, verbatim from cli.py. -/
def warnMsg : String := "[yellow]Please enter an integer."

/-- `f"[bold green]Correct![/] The number was {secret}."` -/
def winMsg (secret : Int) : String :=
  "[bold green]Correct![/] The number was " ++ toString secret ++ "."

/-- `f"[cyan]Try {hint}."` where `hint = "higher" if n < secret else "lower"`. -/
def hintMsg (n secret : Int) : String :=
  "[cyan]Try " ++ (if n < secret then "higher" else "lower") ++ "."

/-- `f"[red]Out of attempts! The number was {secret}."` -/
def lostMsg (secret : Int) : String :=
  "[red]Out of attempts! The number was " ++ toString secret ++ "."

/-- `f"Guess a number between {low} and {high}. You have {attempts} attempts."` -/
def introMsg (low high attempts : Int) : String :=
  "Guess a number between " ++ toString low ++ " and " ++ toString high ++
    ". You have " ++ toString attempts ++ " attempts."

/-- `f"Attempt {turn}"`, the prompt text of `Prompt.ask`. -/
def promptMsg (turn : Nat) : String := "Attempt " ++ toString turn

/-- Result of running the `for turn in range(1, attempts + 1)` loop. -/
structure LoopRes where
  output : List String
  prompts : List String
  accepted : Nat
  rejected : Nat
  outcome : GOutcome
deriving DecidableEq, Repr

/-- The guessing loop of cli.py lines 45–56.  `turn` is the loop
variable's current value, `remaining` the number of iterations the
`range` has left.  Note that the `continue` on a non-integer line moves
the `for` loop to its next iteration, so that line's iteration is spent. -/
def guessLoop (secret : Int) (turn remaining : Nat) (inputs : List String) : LoopRes :=
  match remaining with
  | 0 => ⟨[], [], 0, 0, .lost⟩
  | r + 1 =>
    match inputs with
    | [] => ⟨[], [promptMsg turn], 0, 0, .eofAbort⟩
    | raw :: rest =>
      match pyInt raw with
      | none =>
        let k := guessLoop secret (turn + 1) r rest
        ⟨warnMsg :: k.output, promptMsg turn :: k.prompts,
          k.accepted, k.rejected + 1, k.outcome⟩
      | some n =>
        if n = secret then
          ⟨[winMsg secret], [promptMsg turn], 1, 0, .won turn⟩
        else
          let k := guessLoop secret (turn + 1) r rest
          ⟨hintMsg n secret :: k.output, promptMsg turn :: k.prompts,
            k.accepted + 1, k.rejected, k.outcome⟩

/-- Observable result of one `guess` invocation.  `outcome = none` means
validation failed before a session started (`secretUsed = none`: the
generator was never consulted). -/
structure GuessResult where
  output : List String
  prompts : List String
  exitCode : Nat
  secretUsed : Option Int
  accepted : Nat
  rejected : Nat
  outcome : Option GOutcome
deriving DecidableEq, Repr

/-- The `guess` command (cli.py lines 36–57).  `rng` is the entropy used
by the single `random.randint` call; `inputs` the interactive lines. -/
def guess (rng : Nat) (low high attempts : Int) (inputs : List String) : GuessResult :=
  if high ≤ low then
    ⟨["[red]low must be < high"], [], 1, none, 0, 0, none⟩
  else
    let secret := randint low high rng
    let k := guessLoop secret 1 attempts.toNat inputs
    let tail : List String :=
      match k.outcome with
      | .lost => [lostMsg secret]
      | _ => []
    let exit : Nat :=
      match k.outcome with
      | .eofAbort => 1
      | _ => 0
    ⟨introMsg low high attempts :: k.output ++ tail, k.prompts, exit,
      some secret, k.accepted, k.rejected, some k.outcome⟩

/-! ### The `quote` command

The HTTP collaborator is an explicit input describing what
`requests.get` / `raise_for_status` / `.json()` do on this invocation:
either the request itself raises, or a response with a status code and a
body arrives, the body being `none` when it is not JSON (`.json()`
raises) and otherwise a partial record of the fields the command reads.
`dict.get` on a missing key returns Python `None`, which rich prints as
the four characters `None`. -/

/-- The JSON fields of the payload that `quote` reads; `none` models a
missing key (so `data.get(k)` yields Python `None`). -/
structure Payload where
  content : Option String
  author : Option String
deriving DecidableEq, Repr

/-- One collaborator behaviour: the request raises (network error /
timeout), or a response arrives with an HTTP status and a body that may
fail to decode as JSON. -/
inductive CollabResponse where
  | netFail (msg : String)
  | httpResp (status : Nat) (body : Option Payload)
deriving DecidableEq, Repr

/-- How Python string interpolation renders a value that may be `None`. -/
def pyShowOpt : Option String → String
  | none => "None"
  | some s => s

/-- `Response.raise_for_status` raises `HTTPError` exactly for 4xx/5xx
status codes (its documented contract). -/
def raiseForStatusErrors (status : Nat) : Bool :=
  400 ≤ status && status < 600

/-- Observable result of one `quote` invocation. -/
structure QuoteResult where
  output : List String
  exitCode : Nat
deriving DecidableEq, Repr

/-- `f"[red]Failed to fetch quote: {exc}"` -/
def fetchFailMsg (exc : String) : String := "[red]Failed to fetch quote: " ++ exc

/-- The display line of a successful quote, verbatim from cli.py. -/
def quoteLine (content author : Option String) : String :=
  "\n[bold cyan]\"" ++ pyShowOpt content ++ "\"[/] — [green]" ++
    pyShowOpt author ++ "[/]\n"

/-- The `quote` command (cli.py lines 13–33) with `requests` importable;
`resp` is what the collaborator does on this call. -/
def quote (resp : CollabResponse) : QuoteResult :=
  match resp with
  | .netFail msg => ⟨[fetchFailMsg msg], 1⟩
  | .httpResp status body =>
    if raiseForStatusErrors status then
      ⟨[fetchFailMsg ("status " ++ toString status)], 1⟩
    else
      match body with
      | none => ⟨[fetchFailMsg "invalid JSON"], 1⟩
      | some data => ⟨[quoteLine data.content data.author], 0⟩

/-! ### The `dice` command -/

/-- Python's `repr` of a list of ints, as interpolated by `{result}`. -/
def listRepr (xs : List Int) : String :=
  "[" ++ String.intercalate ", " (xs.map toString) ++ "]"

/-- `round(100 * (num/den) + 1/2)` in integer arithmetic: the number of
hundredths in the exact rational `num/den`, rounded to nearest (half
up). -/
def roundHundredths (num : Int) (den : Nat) : Int :=
  Int.fdiv (num * 200 + (den : Int)) (2 * (den : Int))

/-- `f"{avg:.2f}"` where `avg = num / den`: fixed-point rendering of the
average with two decimal digits.  Python computes `sum/len` in floating
point and formats the float; this is modelled as exact rational rounding
to a hundredth (the claims only exercise exact cases, where the two
agree). -/
def format2 (num : Int) (den : Nat) : String :=
  let scaled : Int := roundHundredths num den
  let sign := if scaled < 0 then "-" else ""
  let a := scaled.natAbs
  sign ++ toString (a / 100) ++ "." ++
    (if a % 100 < 10 then "0" else "") ++ toString (a % 100)

/-- `f"Roll: {result} -> total {total}"` -/
def rollLine (vs : List Int) : String :=
  "Roll: " ++ listRepr vs ++ " -> total " ++ toString vs.sum

/-- `f"Average total over {rolls} rolls: [bold]{avg:.2f}[/]"` with
`avg = num / den` (in the code, `sum(totals) / len(totals)`). -/
def avgLine (rolls : Int) (num : Int) (den : Nat) : String :=
  "Average total over " ++ toString rolls ++ " rolls: [bold]" ++ format2 num den ++ "[/]"

/-- The values of one roll: `[random.randint(1, sides) for _ in range(count)]`.
`rng` is the entropy stream, consumed at consecutive indices. -/
def diceRollValues (rng : Nat → Nat) (sides : Int) (count rollIdx : Nat) : List Int :=
  (List.range count).map fun j => randint 1 sides (rng (rollIdx * count + j))

/-- Observable result of one `dice` invocation; `values` are the die
values drawn, one inner list per roll (empty when validation failed:
no die was rolled). -/
structure DiceResult where
  output : List String
  exitCode : Nat
  values : List (List Int)
deriving DecidableEq, Repr

/-- The `dice` command (cli.py lines 60–74). -/
def dice (rng : Nat → Nat) (count sides rolls : Int) : DiceResult :=
  if count < 1 ∨ sides < 2 ∨ rolls < 1 then
    ⟨["[red]count>=1, sides>=2, rolls>=1 required"], 1, []⟩
  else
    let vss := (List.range rolls.toNat).map (diceRollValues rng sides count.toNat)
    let totals := vss.map List.sum
    let tail : List String :=
      if 1 < rolls then
        [avgLine rolls totals.sum totals.length]
      else []
    ⟨vss.map rollLine ++ tail, 0, vss⟩

/-- A deterministic entropy stream making a one-die roll sequence come
out as 2, 4, 6 (`randint 1 6 (2*i+1) = 2*i+2`): the spec's dice
scenario. -/
def d6rng : Nat → Nat := fun i => 2 * i + 1

/-! ### The `ytdl` command: output-directory handling

Only the directory-creation step (cli.py lines 88–89) is modelled; the
download collaborator is out of scope for the claims.  A filesystem is
the set of existing directories, a path a list of components.
`Path.mkdir(parents=…, exist_ok=…)` follows pathlib's documented
contract: `FileExistsError` when the target exists and `exist_ok` is
false, `FileNotFoundError` when a parent is missing and `parents` is
false, otherwise the target and any missing ancestors are created. -/

/-- A filesystem path, as its list of components. -/
abbrev FsPath := List String

/-- The set of directories that exist, as a list of paths. -/
abbrev FileSystem := List FsPath

/-- Errors `Path.mkdir` can raise. -/
inductive FsError where
  | fileExists
  | fileNotFound
deriving DecidableEq, Repr

/-- The nonempty ancestors of a path, shortest first, the path itself last. -/
def ancestors (p : FsPath) : List FsPath :=
  (List.range p.length).map fun i => p.take (i + 1)

/-- `Path.mkdir(parents=…, exist_ok=…)` on an explicit filesystem. -/
def pathMkdir (fs : FileSystem) (p : FsPath) (parents existOk : Bool) :
    Except FsError FileSystem :=
  if p ∈ fs then
    if existOk then .ok fs else .error .fileExists
  else if ¬parents ∧ p.dropLast ≠ [] ∧ p.dropLast ∉ fs then
    .error .fileNotFound
  else
    .ok (fs ++ (ancestors p).filter (fun q => q ∉ fs))

/-- `outdir = Path(out) if out else Path.cwd()` (cli.py line 88). -/
def ytdlOutdir (out : Option FsPath) (cwd : FsPath) : FsPath :=
  out.getD cwd

/-- `outdir.mkdir(parents=True, exist_ok=True)` (cli.py line 89). -/
def ytdlEnsureDir (fs : FileSystem) (out : Option FsPath) (cwd : FsPath) :
    Except FsError FileSystem :=
  pathMkdir fs (ytdlOutdir out cwd) true true

/-! ### Helper lemmas -/

/-- `random.randint lo hi` lands in the inclusive range `[lo, hi]`. -/
theorem randint_mem (lo hi : Int) (r : Nat) (h : lo ≤ hi) :
    lo ≤ randint lo hi r ∧ randint lo hi r ≤ hi := by
  unfold randint
  have hpos : 0 < (hi - lo + 1).toNat := by omega
  have hm : r % (hi - lo + 1).toNat < (hi - lo + 1).toNat := Nat.mod_lt _ hpos
  omega

theorem warnMsg_length : warnMsg.length = 32 := rfl

theorem winMsg_ne_warnMsg (s : Int) : winMsg s ≠ warnMsg := by
  intro h
  have hl := congrArg String.length h
  rw [winMsg, warnMsg] at hl
  rw [String.length_append, String.length_append] at hl
  have h1 : ("[bold green]Correct![/] The number was " : String).length = 39 := rfl
  have h2 : ("." : String).length = 1 := rfl
  have h3 : ("[yellow]Please enter an integer." : String).length = 32 := rfl
  omega

theorem lostMsg_ne_warnMsg (s : Int) : lostMsg s ≠ warnMsg := by
  intro h
  have hl := congrArg String.length h
  rw [lostMsg, warnMsg] at hl
  rw [String.length_append, String.length_append] at hl
  have h1 : ("[red]Out of attempts! The number was " : String).length = 37 := rfl
  have h2 : ("." : String).length = 1 := rfl
  have h3 : ("[yellow]Please enter an integer." : String).length = 32 := rfl
  omega

theorem introMsg_ne_warnMsg (low high attempts : Int) :
    introMsg low high attempts ≠ warnMsg := by
  intro h
  have hl := congrArg String.length h
  rw [introMsg, warnMsg] at hl
  rw [String.length_append, String.length_append, String.length_append,
    String.length_append, String.length_append, String.length_append] at hl
  have h1 : ("Guess a number between " : String).length = 23 := rfl
  have h2 : (" and " : String).length = 5 := rfl
  have h3 : (". You have " : String).length = 11 := rfl
  have h4 : (" attempts." : String).length = 10 := rfl
  have h5 : ("[yellow]Please enter an integer." : String).length = 32 := rfl
  omega

theorem hintMsg_ne_warnMsg (n s : Int) : hintMsg n s ≠ warnMsg := by
  unfold hintMsg
  by_cases h : n < s <;> simp [h] <;> decide

/-- Every input line consumed by the guessing loop, integer or not,
spends one of the `remaining` iterations of the `for` loop. -/
theorem guessLoop_budget (secret : Int) (remaining : Nat) :
    ∀ turn inputs, (guessLoop secret turn remaining inputs).accepted +
      (guessLoop secret turn remaining inputs).rejected ≤ remaining := by
  induction remaining with
  | zero => intro turn inputs; simp [guessLoop]
  | succ r ih =>
    intro turn inputs
    cases inputs with
    | nil => simp [guessLoop]
    | cons raw rest =>
      have hr := ih (turn + 1) rest
      cases hp : pyInt raw with
      | none => simp [guessLoop, hp]; omega
      | some n =>
        by_cases hn : n = secret
        · simp [guessLoop, hp, hn]
        · simp [guessLoop, hp, hn]; omega

/-- The warning line is printed exactly once per rejected (non-integer)
input line. -/
theorem guessLoop_warn_count (secret : Int) (remaining : Nat) :
    ∀ turn inputs, (guessLoop secret turn remaining inputs).output.count warnMsg =
      (guessLoop secret turn remaining inputs).rejected := by
  induction remaining with
  | zero => intro turn inputs; simp [guessLoop]
  | succ r ih =>
    intro turn inputs
    cases inputs with
    | nil => simp [guessLoop]
    | cons raw rest =>
      have hr := ih (turn + 1) rest
      cases hp : pyInt raw with
      | none => simp [guessLoop, hp, List.count_cons, hr]
      | some n =>
        by_cases hn : n = secret
        · simp [guessLoop, hp, hn, List.count_cons, winMsg_ne_warnMsg]
        · simp [guessLoop, hp, hn, List.count_cons, hr, hintMsg_ne_warnMsg]

/-- When the loop ends in `won t`, its last output line is the success
message, which reveals the secret. -/
theorem guessLoop_won_last (secret : Int) (remaining : Nat) :
    ∀ turn inputs t, (guessLoop secret turn remaining inputs).outcome = .won t →
      (guessLoop secret turn remaining inputs).output.getLast? = some (winMsg secret) := by
  induction remaining with
  | zero => intro turn inputs t h; simp [guessLoop] at h
  | succ r ih =>
    intro turn inputs t h
    cases inputs with
    | nil => simp [guessLoop] at h
    | cons raw rest =>
      cases hp : pyInt raw with
      | none =>
        have h' : (guessLoop secret (turn + 1) r rest).outcome = .won t := by
          simpa [guessLoop, hp] using h
        have hk := ih (turn + 1) rest t h'
        have hne : (guessLoop secret (turn + 1) r rest).output ≠ [] := by
          intro hnil; rw [hnil] at hk; simp at hk
        have hout : (guessLoop secret turn (r + 1) (raw :: rest)).output =
            [warnMsg] ++ (guessLoop secret (turn + 1) r rest).output := by
          simp [guessLoop, hp]
        rw [hout, List.getLast?_append_of_ne_nil _ hne]
        exact hk
      | some n =>
        by_cases hn : n = secret
        · simp [guessLoop, hp, hn]
        · have h' : (guessLoop secret (turn + 1) r rest).outcome = .won t := by
            simpa [guessLoop, hp, hn] using h
          have hk := ih (turn + 1) rest t h'
          have hne : (guessLoop secret (turn + 1) r rest).output ≠ [] := by
            intro hnil; rw [hnil] at hk; simp at hk
          have hout : (guessLoop secret turn (r + 1) (raw :: rest)).output =
              [hintMsg n secret] ++ (guessLoop secret (turn + 1) r rest).output := by
            simp [guessLoop, hp, hn]
          rw [hout, List.getLast?_append_of_ne_nil _ hne]
          exact hk

/-- `Path.mkdir(parents=True, exist_ok=True)` always succeeds, and a
second call on the resulting filesystem succeeds without changing it. -/
theorem pathMkdir_true_true_idem (fs : FileSystem) (p : FsPath) :
    ∃ fs2, pathMkdir fs p true true = .ok fs2 ∧ pathMkdir fs2 p true true = .ok fs2 := by
  by_cases h : p ∈ fs
  · exact ⟨fs, by simp [pathMkdir, h], by simp [pathMkdir, h]⟩
  · by_cases hnil : p = []
    · subst hnil
      exact ⟨fs, by simp [pathMkdir, h, ancestors], by simp [pathMkdir, h, ancestors]⟩
    · have hself : p ∈ ancestors p := by
        unfold ancestors
        refine List.mem_map.mpr ⟨p.length - 1, List.mem_range.mpr ?_, ?_⟩
        · have := List.length_pos.mpr hnil; omega
        · have hl : p.length - 1 + 1 = p.length := by
            have := List.length_pos.mpr hnil; omega
          rw [hl, List.take_length]
      refine ⟨fs ++ (ancestors p).filter (fun q => q ∉ fs), ?_, ?_⟩
      · simp [pathMkdir, h]
      · have hmem : p ∈ fs ++ (ancestors p).filter (fun q => q ∉ fs) :=
          List.mem_append_right _ (List.mem_filter.mpr ⟨hself, by simpa using h⟩)
        unfold pathMkdir
        rw [if_pos hmem, if_pos rfl]

/-! ### The claims -/

/-- Claim C4: for every pair of integers with `low < high`, the secret
drawn at the start of a guess session satisfies `low ≤ secret ≤ high`
(drawn from the inclusive range `[low, high]`). -/
theorem guess_secret_in_range (rng : Nat) (low high attempts : Int) (inputs : List String)
    (h : low < high) :
    (guess rng low high attempts inputs).secretUsed = some (randint low high rng) ∧
    low ≤ randint low high rng ∧ randint low high rng ≤ high := by
  refine ⟨?_, randint_mem low high rng (le_of_lt h)⟩
  have hb : ¬ high ≤ low := not_le.mpr h
  simp [guess, hb]

/-- Witness for C4 at `low = 1, high = 10`, entropy 4 (secret 5). -/
theorem guess_secret_in_range_witness :
    (1 : Int) < 10 ∧
    ((guess 4 1 10 7 []).secretUsed = some (randint 1 10 4) ∧
      (1 : Int) ≤ randint 1 10 4 ∧ randint 1 10 4 ≤ 10) :=
  ⟨by decide, guess_secret_in_range 4 1 10 7 [] (by decide)⟩

/-- Claim C5: for every input with `low ≥ high`, the guess command
prints the error message and returns exit status 1 without starting a
game: no secret is drawn, no prompt is issued, and no guess is read. -/
theorem guess_invalid_bounds (rng : Nat) (low high attempts : Int) (inputs : List String)
    (h : high ≤ low) :
    guess rng low high attempts inputs =
      ⟨["[red]low must be < high"], [], 1, none, 0, 0, none⟩ := by
  simp [guess, h]

/-- Witness for C5 at the spec's scenario `low = 5, high = 5`. -/
theorem guess_invalid_bounds_witness :
    (5 : Int) ≤ 5 ∧
    guess 0 5 5 7 ["1"] = ⟨["[red]low must be < high"], [], 1, none, 0, 0, none⟩ :=
  ⟨by decide, guess_invalid_bounds 0 5 5 7 ["1"] (by decide)⟩

/-- Claim C7: for every dice input violating any bound (`count < 1` or
`sides < 2` or `rolls < 1`), the dice command reports an error and
returns exit status 1, and no die is rolled. -/
theorem dice_invalid_bounds (rng : Nat → Nat) (count sides rolls : Int)
    (h : count < 1 ∨ sides < 2 ∨ rolls < 1) :
    dice rng count sides rolls =
      ⟨["[red]count>=1, sides>=2, rolls>=1 required"], 1, []⟩ := by
  unfold dice
  rw [if_pos h]

/-- Witness for C7 at the spec's scenario `count = 0`. -/
theorem dice_invalid_bounds_witness :
    ((0 : Int) < 1 ∨ (6 : Int) < 2 ∨ (1 : Int) < 1) ∧
    dice d6rng 0 6 1 = ⟨["[red]count>=1, sides>=2, rolls>=1 required"], 1, []⟩ :=
  ⟨by decide, dice_invalid_bounds d6rng 0 6 1 (by decide)⟩

/-- Claim C10 (implicit edge case): for every guess input with
`low < high` and `attempts ≤ 0`, the command starts normally (draws a
secret, prints the introductory message), issues no prompt, immediately
prints the out-of-attempts message revealing the secret, and returns
exit status 0 rather than rejecting the non-positive attempts value. -/
theorem guess_nonpositive_attempts (rng : Nat) (low high attempts : Int) (inputs : List String)
    (hlh : low < high) (ha : attempts ≤ 0) :
    guess rng low high attempts inputs =
      ⟨[introMsg low high attempts, lostMsg (randint low high rng)], [], 0,
        some (randint low high rng), 0, 0, some .lost⟩ := by
  have hb : ¬ high ≤ low := not_le.mpr hlh
  have h0 : attempts.toNat = 0 := by omega
  simp [guess, hb, h0, guessLoop]

/-- Witness for C10 at `attempts = 0` (and inputs available but unread). -/
theorem guess_nonpositive_attempts_witness :
    (1 : Int) < 10 ∧ (0 : Int) ≤ 0 ∧
    guess 4 1 10 0 ["3"] =
      ⟨[introMsg 1 10 0, lostMsg (randint 1 10 4)], [], 0,
        some (randint 1 10 4), 0, 0, some .lost⟩ :=
  ⟨by decide, by decide, guess_nonpositive_attempts 4 1 10 0 ["3"] (by decide) (by decide)⟩

/-- Claim C9: the ytdl command's output-directory creation is
idempotent: for every directory path (defaulting to the current working
directory when `--out` is absent), `mkdir(parents=True, exist_ok=True)`
succeeds — creating missing ancestors — and a second invocation on the
resulting (existing) directory also succeeds and changes nothing. -/
theorem ytdl_mkdir_idempotent (fs : FileSystem) (out : Option FsPath) (cwd : FsPath) :
    ∃ fs2, ytdlEnsureDir fs out cwd = .ok fs2 ∧ ytdlEnsureDir fs2 out cwd = .ok fs2 :=
  pathMkdir_true_true_idem fs (ytdlOutdir out cwd)

/-- Claim C2, counterexample: a 2xx JSON response whose payload is
missing the `content` field does NOT make the command fail.  `dict.get`
returns Python `None` for the missing key, nothing raises, so the
command displays the quote line with `None` in place of the content and
returns exit status 0 — not the single error line and exit status 1 the
claim requires. -/
theorem quote_missing_content_cex :
    quote (.httpResp 200 (some ⟨none, some "Marcus Aurelius"⟩)) =
      ⟨["\n[bold cyan]\"None\"[/] — [green]Marcus Aurelius[/]\n"], 0⟩ := by
  decide

/-- Claim C2 as amended: only collaborator behaviours that raise —
network error, 4xx/5xx status, non-JSON body — produce the single error
line and exit status 1; a decoded JSON payload under a non-error status
is always displayed with exit status 0, a missing `content` field
included (it is rendered as `None`).  In all cases the command returns
normally: no exception passes the command boundary. -/
theorem quote_outcomes (msg : String) (status errStatus : Nat) (p : Payload)
    (body : Option Payload)
    (h2xx : 200 ≤ status ∧ status < 300) (herr : 400 ≤ errStatus ∧ errStatus < 600) :
    quote (.netFail msg) = ⟨[fetchFailMsg msg], 1⟩ ∧
    quote (.httpResp errStatus body) =
      ⟨[fetchFailMsg ("status " ++ toString errStatus)], 1⟩ ∧
    quote (.httpResp status none) = ⟨[fetchFailMsg "invalid JSON"], 1⟩ ∧
    quote (.httpResp status (some p)) = ⟨[quoteLine p.content p.author], 0⟩ := by
  have hf : raiseForStatusErrors status = false := by
    simp only [raiseForStatusErrors, Bool.and_eq_false_iff, decide_eq_false_iff_not]
    omega
  have ht : raiseForStatusErrors errStatus = true := by
    simp only [raiseForStatusErrors, Bool.and_eq_true, decide_eq_true_eq]
    omega
  exact ⟨rfl, by simp [quote, ht], by simp [quote, hf], by simp [quote, hf]⟩

/-- Witness for the amended C2, the missing-`content` payload included
(last conjunct: content `None`, exit 0). -/
theorem quote_outcomes_witness :
    (200 ≤ 200 ∧ 200 < 300) ∧ (400 ≤ 404 ∧ 404 < 600) ∧
    (quote (.netFail "timeout") = ⟨[fetchFailMsg "timeout"], 1⟩ ∧
     quote (.httpResp 404 (some ⟨some "q", some "a"⟩)) =
       ⟨[fetchFailMsg ("status " ++ toString 404)], 1⟩ ∧
     quote (.httpResp 200 none) = ⟨[fetchFailMsg "invalid JSON"], 1⟩ ∧
     quote (.httpResp 200 (some ⟨none, some "Seneca"⟩)) =
       ⟨[quoteLine none (some "Seneca")], 0⟩) :=
  ⟨by decide, by decide,
    quote_outcomes "timeout" 200 404 ⟨none, some "Seneca"⟩
      (some ⟨some "q", some "a"⟩) (by decide) (by decide)⟩

/-- Claim C1, counterexample: with `attempts = 2` and input lines
`["x", "1", "2"]`, the non-integer first line consumes a turn — the
session ends Lost after only two prompts with a single integer guess
accepted, while the same session without the `"x"` accepts two.  The
number of integer guesses accepted can therefore fall short of the
attempts budget, contradicting the claim. -/
theorem guess_nonint_consumes_attempt_cex :
    (guess 4 1 10 2 ["x", "1", "2"]).outcome = some .lost ∧
    (guess 4 1 10 2 ["x", "1", "2"]).prompts = ["Attempt 1", "Attempt 2"] ∧
    (guess 4 1 10 2 ["x", "1", "2"]).accepted = 1 ∧
    (guess 4 1 10 2 ["x", "1", "2"]).rejected = 1 ∧
    (guess 4 1 10 2 ["1", "2"]).accepted = 2 := by
  decide

/-- Claim C1 as amended: a non-integer input line is warned about
(exactly one warning line per rejected input) but DOES consume a turn:
the `continue` advances the `for` loop, so every consumed input line,
integer or not, spends one unit of the attempts budget
(`accepted + rejected ≤ attempts`). -/
theorem guess_input_consumption (rng : Nat) (low high attempts : Int)
    (inputs : List String) :
    (guess rng low high attempts inputs).accepted +
      (guess rng low high attempts inputs).rejected ≤ attempts.toNat ∧
    (guess rng low high attempts inputs).output.count warnMsg =
      (guess rng low high attempts inputs).rejected := by
  by_cases hb : high ≤ low
  · constructor
    · simp [guess, hb]
    · simp [guess, hb]
      decide
  · have hbud := guessLoop_budget (randint low high rng) attempts.toNat 1 inputs
    have hcnt := guessLoop_warn_count (randint low high rng) attempts.toNat 1 inputs
    have hi := introMsg_ne_warnMsg low high attempts
    have hl := lostMsg_ne_warnMsg (randint low high rng)
    constructor
    · simpa [guess, hb] using hbud
    · rcases ho : (guessLoop (randint low high rng) 1 attempts.toNat inputs).outcome with
        t | _ | _ <;>
        simp [guess, hb, ho, List.count_cons, List.count_append, hi, hl, hcnt]

/-- Claim C3, counterexample: the success message does not report the
number of turns used.  Two sessions won at turn 1 and at turn 3 end with
the identical final line (it reveals the secret, not the turn count), so
"reports success with the number of turns used" fails. -/
theorem guess_win_message_cex :
    (guess 4 1 10 7 ["5"]).outcome = some (.won 1) ∧
    (guess 4 1 10 7 ["1", "2", "5"]).outcome = some (.won 3) ∧
    (guess 4 1 10 7 ["5"]).output.getLast? =
      (guess 4 1 10 7 ["1", "2", "5"]).output.getLast? := by
  decide

/-- Claim C3 as amended: whenever a parsed guess equals the secret, the
command reports success revealing the secret — the final output line is
the success message carrying the secret, not the number of turns used —
and terminates the session in the terminal state Won with exit
status 0. -/
theorem guess_win_reports_secret (rng : Nat) (low high attempts : Int)
    (inputs : List String) (t : Nat)
    (h : (guess rng low high attempts inputs).outcome = some (.won t)) :
    (guess rng low high attempts inputs).exitCode = 0 ∧
    (guess rng low high attempts inputs).output.getLast? =
      some (winMsg (randint low high rng)) := by
  by_cases hb : high ≤ low
  · simp [guess, hb] at h
  · have ho : (guessLoop (randint low high rng) 1 attempts.toNat inputs).outcome = .won t := by
      simpa [guess, hb] using h
    have hlast := guessLoop_won_last (randint low high rng) attempts.toNat 1 inputs t ho
    have hne : (guessLoop (randint low high rng) 1 attempts.toNat inputs).output ≠ [] := by
      intro hnil; rw [hnil] at hlast; simp at hlast
    constructor
    · simp [guess, hb, ho]
    · have hout : (guess rng low high attempts inputs).output =
          [introMsg low high attempts] ++
            (guessLoop (randint low high rng) 1 attempts.toNat inputs).output := by
        simp [guess, hb, ho]
      rw [hout, List.getLast?_append_of_ne_nil _ hne]
      exact hlast

/-- Witness for the amended C3: win at turn 1, secret 5. -/
theorem guess_win_reports_secret_witness :
    (guess 4 1 10 7 ["5"]).outcome = some (.won 1) ∧
    ((guess 4 1 10 7 ["5"]).exitCode = 0 ∧
      (guess 4 1 10 7 ["5"]).output.getLast? = some (winMsg (randint 1 10 4))) :=
  ⟨by decide, guess_win_reports_secret 4 1 10 7 ["5"] 1 (by decide)⟩

/-- Claim C8: when all attempts are exhausted without a correct guess,
the command reports failure — the final output line is the
out-of-attempts message revealing the secret — and returns exit
status 0 (a loss is not an error). -/
theorem guess_lost_run (rng : Nat) (low high attempts : Int) (inputs : List String)
    (h : (guess rng low high attempts inputs).outcome = some .lost) :
    (guess rng low high attempts inputs).exitCode = 0 ∧
    (guess rng low high attempts inputs).output.getLast? =
      some (lostMsg (randint low high rng)) := by
  by_cases hb : high ≤ low
  · simp [guess, hb] at h
  · have ho : (guessLoop (randint low high rng) 1 attempts.toNat inputs).outcome = .lost := by
      simpa [guess, hb] using h
    constructor
    · simp [guess, hb, ho]
    · have hout : (guess rng low high attempts inputs).output =
          (introMsg low high attempts ::
            (guessLoop (randint low high rng) 1 attempts.toNat inputs).output) ++
            [lostMsg (randint low high rng)] := by
        simp [guess, hb, ho]
      rw [hout, List.getLast?_concat]

/-- Witness for C8 at the spec's scenario: `low = 1, high = 10,
attempts = 2`, secret 5, inputs `["1", "2"]`. -/
theorem guess_lost_run_witness :
    (guess 4 1 10 2 ["1", "2"]).outcome = some .lost ∧
    ((guess 4 1 10 2 ["1", "2"]).exitCode = 0 ∧
      (guess 4 1 10 2 ["1", "2"]).output.getLast? = some (lostMsg (randint 1 10 4))) :=
  ⟨by decide, guess_lost_run 4 1 10 2 ["1", "2"] (by decide)⟩

/-- Claim C6: for every valid dice input (`count ≥ 1`, `sides ≥ 2`,
`rolls ≥ 1`), each of the `rolls` repetitions draws `count` integers in
`[1, sides]` and displays them with their sum as the total; exactly when
`rolls > 1` an additional line displays the arithmetic mean
`sum(totals)/len(totals)` formatted to two decimal places, and when
`rolls = 1` no average line is printed. -/
theorem dice_valid_run (rng : Nat → Nat) (count sides rolls : Int)
    (hc : 1 ≤ count) (hs : 2 ≤ sides) (hr : 1 ≤ rolls) :
    (dice rng count sides rolls).exitCode = 0 ∧
    (dice rng count sides rolls).values.length = rolls.toNat ∧
    (∀ vs ∈ (dice rng count sides rolls).values,
      vs.length = count.toNat ∧ ∀ v ∈ vs, 1 ≤ v ∧ v ≤ sides) ∧
    (dice rng count sides rolls).output =
      (dice rng count sides rolls).values.map rollLine ++
        (if 1 < rolls then
          [avgLine rolls ((dice rng count sides rolls).values.map List.sum).sum
            ((dice rng count sides rolls).values.map List.sum).length]
         else []) := by
  have hcond : ¬(count < 1 ∨ sides < 2 ∨ rolls < 1) := by omega
  refine ⟨by simp [dice, hcond], by simp [dice, hcond], ?_, by simp [dice, hcond]⟩
  intro vs hvs
  simp only [dice, hcond, if_false, List.mem_map, List.mem_range] at hvs
  obtain ⟨i, _, rfl⟩ := hvs
  constructor
  · simp [diceRollValues]
  · intro v hv
    simp only [diceRollValues, List.mem_map, List.mem_range] at hv
    obtain ⟨j, _, rfl⟩ := hv
    exact randint_mem 1 sides _ (by omega)

/-- Witness for C6 at the spec's scenario `count = 1, sides = 6,
rolls = 3` with totals 2, 4, 6: the average line shows `4.00`, last
conjunct evaluated concretely. -/
theorem dice_valid_run_witness :
    (1 : Int) ≤ 1 ∧ (2 : Int) ≤ 6 ∧ (1 : Int) ≤ 3 ∧
    (dice d6rng 1 6 3).exitCode = 0 ∧
    (dice d6rng 1 6 3).values.length = (3 : Int).toNat ∧
    (dice d6rng 1 6 3).output =
      ["Roll: [2] -> total 2", "Roll: [4] -> total 4", "Roll: [6] -> total 6",
       "Average total over 3 rolls: [bold]4.00[/]"] :=
  ⟨by decide, by decide, by decide,
    (dice_valid_run d6rng 1 6 3 (by decide) (by decide) (by decide)).1,
    (dice_valid_run d6rng 1 6 3 (by decide) (by decide) (by decide)).2.1,
    by decide⟩

end Pyprojects
